import Mathlib

/-!
Shallow embedding of `src/constants.js` of the antigravity-claude-proxy
repository: the model classifier (`getModelFamily`, `isThinkingModel`),
the policy tables (`MODEL_FALLBACK_MAP`, `ANTIGRAVITY_ENDPOINT_FALLBACKS`),
the configurable numeric knobs, and the platform-dependent credential
store path (`getAntigravityDbPath`).

JavaScript strings are modelled as `List Char`; a possibly
null/undefined string argument is modelled as `Option (List Char)`.
-/

namespace AntigravityProxy

/-- Model of `String.prototype.toLowerCase` (per-character lowering). -/
def lowerStr (s : List Char) : List Char := s.map Char.toLower

/-- Model of `String.prototype.includes`: `pat` occurs as a contiguous
substring of `s`. -/
def includesStr : List Char → List Char → Bool
  | [], pat => pat.isEmpty
  | c :: t, pat => pat.isPrefixOf (c :: t) || includesStr t pat

/-- Decimal value of a digit string, as `parseInt(ds, 10)` computes it on a
string of decimal digits. -/
def parseNat (ds : List Char) : Nat :=
  ds.foldl (fun acc c => acc * 10 + (c.toNat - 48)) 0

def claudeStr : List Char := "claude".toList

def geminiStr : List Char := "gemini".toList

def thinkingStr : List Char := "thinking".toList

def geminiDashStr : List Char := "gemini-".toList

/-- The model family returned by `getModelFamily`. -/
inductive ModelFamily where
  | claude
  | gemini
  | unknown
  deriving DecidableEq, Repr

/-- Embedding of `getModelFamily` (src/constants.js, lines 106-111):
`(modelName || '')` is lower-cased, then tested for the substrings
"claude" and "gemini" in that order. -/
def getModelFamily (modelName : Option (List Char)) : ModelFamily :=
  let lower := lowerStr (modelName.getD [])
  if includesStr lower claudeStr then ModelFamily.claude
  else if includesStr lower geminiStr then ModelFamily.gemini
  else ModelFamily.unknown

/-- Model of `lower.match(/gemini-(\d+)/)`: scan left to right for the first
position where "gemini-" is immediately followed by at least one decimal
digit; return the maximal digit run there (the capture group), or `none`. -/
def geminiVersionMatch : List Char → Option (List Char)
  | [] => none
  | c :: t =>
    let ds := ((c :: t).drop 7).takeWhile Char.isDigit
    if geminiDashStr.isPrefixOf (c :: t) && !ds.isEmpty then some ds
    else geminiVersionMatch t

/-- Embedding of `isThinkingModel` (src/constants.js, lines 118-130):
claude+thinking, or gemini with thinking, or gemini whose first
`gemini-(\d+)` match parses to at least 3. -/
def isThinkingModel (modelName : Option (List Char)) : Bool :=
  let lower := lowerStr (modelName.getD [])
  if includesStr lower claudeStr && includesStr lower thinkingStr then true
  else if includesStr lower geminiStr then
    if includesStr lower thinkingStr then true
    else
      match geminiVersionMatch lower with
      | some ds => decide (3 ≤ parseNat ds)
      | none => false
  else false

/-- The external configuration object `config` (imported from
`./config.js`); each knob the repository reads through `config?.knob`
is an optional field (`none` models an absent/undefined property). -/
structure Config where
  tokenCacheTtlMs : Option Nat
  requestBodyLimit : Option (List Char)
  port : Option Nat
  accountConfigPath : Option (List Char)
  defaultCooldownMs : Option Nat
  maxRetries : Option Nat
  maxAccounts : Option Nat
  maxWaitBeforeErrorMs : Option Nat

/-- JavaScript `v || d` for an optional number `v`: a present non-zero
value wins, an absent value or the falsy number `0` yields `d`. -/
def jsOrNat (v : Option Nat) (d : Nat) : Nat :=
  match v with
  | some n => if n = 0 then d else n
  | none => d

/-- JavaScript `v || d` for an optional string `v`: a present non-empty
string wins, an absent value or the falsy empty string yields `d`. -/
def jsOrStr (v : Option (List Char)) (d : List Char) : List Char :=
  match v with
  | some s => if s.isEmpty then d else s
  | none => d

/-- Model of node `path.join(a, b)` for a `/`-separated path with plain
components: concatenation with a single separator. -/
def joinPath (a b : List Char) : List Char := a ++ '/' :: b

/-- `TOKEN_REFRESH_INTERVAL_MS = config?.tokenCacheTtlMs || (5 * 60 * 1000)`. -/
def TOKEN_REFRESH_INTERVAL_MS (c : Config) : Nat :=
  jsOrNat c.tokenCacheTtlMs (5 * 60 * 1000)

/-- `REQUEST_BODY_LIMIT = config?.requestBodyLimit || '50mb'`. -/
def REQUEST_BODY_LIMIT (c : Config) : List Char :=
  jsOrStr c.requestBodyLimit "50mb".toList

/-- `DEFAULT_PORT = config?.port || 8080`. -/
def DEFAULT_PORT (c : Config) : Nat := jsOrNat c.port 8080

/-- `ACCOUNT_CONFIG_PATH = config?.accountConfigPath || join(homedir(),
'.config/antigravity-proxy/accounts.json')`. -/
def ACCOUNT_CONFIG_PATH (c : Config) (home : List Char) : List Char :=
  jsOrStr c.accountConfigPath
    (joinPath home ".config/antigravity-proxy/accounts.json".toList)

/-- `DEFAULT_COOLDOWN_MS = config?.defaultCooldownMs || (10 * 1000)`. -/
def DEFAULT_COOLDOWN_MS (c : Config) : Nat :=
  jsOrNat c.defaultCooldownMs (10 * 1000)

/-- `MAX_RETRIES = config?.maxRetries || 5`. -/
def MAX_RETRIES (c : Config) : Nat := jsOrNat c.maxRetries 5

/-- `MAX_ACCOUNTS = config?.maxAccounts || 10`. -/
def MAX_ACCOUNTS (c : Config) : Nat := jsOrNat c.maxAccounts 10

/-- `MAX_WAIT_BEFORE_ERROR_MS = config?.maxWaitBeforeErrorMs || 120000`. -/
def MAX_WAIT_BEFORE_ERROR_MS (c : Config) : Nat :=
  jsOrNat c.maxWaitBeforeErrorMs 120000

/-- Embedding of `getAntigravityDbPath` (src/constants.js, lines 17-27),
with the process-global `platform()` and `homedir()` passed explicitly. -/
def getAntigravityDbPath (plat home : List Char) : List Char :=
  if plat = "darwin".toList then
    joinPath home
      "Library/Application Support/Antigravity/User/globalStorage/state.vscdb".toList
  else if plat = "win32".toList then
    joinPath home "AppData/Roaming/Antigravity/User/globalStorage/state.vscdb".toList
  else
    joinPath home ".config/Antigravity/User/globalStorage/state.vscdb".toList

def ANTIGRAVITY_ENDPOINT_DAILY : List Char :=
  "https://daily-cloudcode-pa.googleapis.com".toList

def ANTIGRAVITY_ENDPOINT_PROD : List Char :=
  "https://cloudcode-pa.googleapis.com".toList

/-- Embedding of `ANTIGRAVITY_ENDPOINT_FALLBACKS` (src/constants.js,
lines 44-47): daily endpoint first, production endpoint second. -/
def ANTIGRAVITY_ENDPOINT_FALLBACKS : List (List Char) :=
  [ANTIGRAVITY_ENDPOINT_DAILY, ANTIGRAVITY_ENDPOINT_PROD]

/-- Embedding of `MODEL_FALLBACK_MAP` (src/constants.js, lines 156-163)
as an association list in source order. -/
def MODEL_FALLBACK_MAP : List (List Char × List Char) :=
  [("gemini-3-pro-high".toList, "claude-opus-4-5-thinking".toList),
   ("gemini-3-pro-low".toList, "claude-sonnet-4-5".toList),
   ("gemini-3-flash".toList, "claude-sonnet-4-5-thinking".toList),
   ("claude-opus-4-5-thinking".toList, "gemini-3-pro-high".toList),
   ("claude-sonnet-4-5-thinking".toList, "gemini-3-flash".toList),
   ("claude-sonnet-4-5".toList, "gemini-3-flash".toList)]

/-- Property lookup `MODEL_FALLBACK_MAP[m]` (object property access). -/
def fallbackLookup (m : List Char) : Option (List Char) :=
  (MODEL_FALLBACK_MAP.find? (fun p => decide (p.1 = m))).map Prod.snd

/-- Spec-side predicate, following the claim wording: the string contains,
at some position, a version marker "gemini-<integer>" (maximal digit run)
whose parsed integer is at least `v`. Compared against the code's
first-match behaviour in `isThinkingModel`. -/
def specHasGeminiVersionGE (v : Nat) : List Char → Bool
  | [] => false
  | c :: t =>
    (geminiDashStr.isPrefixOf (c :: t) &&
      !(((c :: t).drop 7).takeWhile Char.isDigit).isEmpty &&
      decide (v ≤ parseNat (((c :: t).drop 7).takeWhile Char.isDigit))) ||
    specHasGeminiVersionGE v t

/-- Spec-side thinking predicate, following the claim wording of C1:
claude+thinking, or gemini with thinking or with SOME marker
"gemini-<integer>" parsing to at least 3 (anywhere in the name). -/
def spec_supportsThinking (modelName : Option (List Char)) : Bool :=
  let lower := lowerStr (modelName.getD [])
  (includesStr lower claudeStr && includesStr lower thinkingStr) ||
  (includesStr lower geminiStr &&
    (includesStr lower thinkingStr || specHasGeminiVersionGE 3 lower))

/-- The first-match version condition actually implemented by the code. -/
def firstGeminiVersionGE (v : Nat) (s : List Char) : Bool :=
  match geminiVersionMatch s with
  | some ds => decide (v ≤ parseNat ds)
  | none => false

/-- A configuration with every knob absent. -/
def emptyConfig : Config := ⟨none, none, none, none, none, none, none, none⟩

/-- A configuration that explicitly supplies `maxRetries = 0` (a falsy
value) and leaves everything else absent. -/
def zeroRetriesConfig : Config := ⟨none, none, none, none, none, some 0, none, none⟩

/-- A configuration supplying a truthy value for every knob. -/
def fullConfig : Config :=
  ⟨some 1000, some "10mb".toList, some 3000, some "/tmp/accounts.json".toList,
   some 2000, some 7, some 3, some 60000⟩

/-- C1 (counterexample): the claim reads `isThinkingModel` as true whenever
the name contains SOME marker "gemini-<integer>" parsing to at least 3;
on "gemini-2-gemini-3" that reading gives true, but the code inspects only
the first match `gemini-2` and returns false. -/
theorem thinking_spec_any_marker_counterexample :
    spec_supportsThinking (some "gemini-2-gemini-3".toList) = true ∧
    isThinkingModel (some "gemini-2-gemini-3".toList) = false := by
  decide

/-- C1 (amended): `isThinkingModel` returns true exactly when the
lower-cased name contains both "claude" and "thinking", or contains
"gemini" and either contains "thinking" or its FIRST marker
"gemini-<digits>" (leftmost match, maximal digit run) parses to an
integer that is at least 3; together with the five concrete examples of
the claim. -/
theorem thinking_classification_amended :
    (∀ m : Option (List Char),
      isThinkingModel m =
        ((includesStr (lowerStr (m.getD [])) claudeStr &&
          includesStr (lowerStr (m.getD [])) thinkingStr) ||
         (includesStr (lowerStr (m.getD [])) geminiStr &&
          (includesStr (lowerStr (m.getD [])) thinkingStr ||
           firstGeminiVersionGE 3 (lowerStr (m.getD [])))))) ∧
    isThinkingModel (some "gemini-3-pro-high".toList) = true ∧
    isThinkingModel (some "gemini-2.5-pro".toList) = false ∧
    isThinkingModel (some "gemini-3.5-flash-thinking".toList) = true ∧
    isThinkingModel (some "claude-opus-4-5-thinking".toList) = true ∧
    isThinkingModel (some "claude-opus-4-5".toList) = false := by
  refine ⟨?_, by decide, by decide, by decide, by decide, by decide⟩
  intro m
  simp only [isThinkingModel, firstGeminiVersionGE]
  cases ha : includesStr (lowerStr (m.getD [])) claudeStr <;>
    cases hb : includesStr (lowerStr (m.getD [])) thinkingStr <;>
      cases hc : includesStr (lowerStr (m.getD [])) geminiStr <;>
        simp [ha, hb, hc]

/-- C2: `getModelFamily` lower-cases the name and returns claude when the
result contains "claude", else gemini when it contains "gemini", else
unknown; in particular a lower-cased name containing "claude" and not
"gemini" yields claude, and symmetrically for gemini. -/
theorem family_classification :
    (∀ m : Option (List Char),
      getModelFamily m =
        (if includesStr (lowerStr (m.getD [])) claudeStr then ModelFamily.claude
         else if includesStr (lowerStr (m.getD [])) geminiStr then ModelFamily.gemini
         else ModelFamily.unknown)) ∧
    (∀ m : Option (List Char),
      includesStr (lowerStr (m.getD [])) claudeStr = true →
      includesStr (lowerStr (m.getD [])) geminiStr = false →
      getModelFamily m = ModelFamily.claude) ∧
    (∀ m : Option (List Char),
      includesStr (lowerStr (m.getD [])) geminiStr = true →
      includesStr (lowerStr (m.getD [])) claudeStr = false →
      getModelFamily m = ModelFamily.gemini) := by
  refine ⟨fun m => rfl, fun m h1 h2 => ?_, fun m h1 h2 => ?_⟩
  · simp [getModelFamily, h1]
  · simp [getModelFamily, h1, h2]

/-- Witness for C2 at concrete model names. -/
theorem family_classification_witness :
    getModelFamily (some "my-claude-model".toList) = ModelFamily.claude ∧
    getModelFamily (some "my-gemini-model".toList) = ModelFamily.gemini :=
  ⟨family_classification.2.1 (some "my-claude-model".toList) (by decide) (by decide),
   family_classification.2.2 (some "my-gemini-model".toList) (by decide) (by decide)⟩

/-- C3 (counterexample): the claim says every supplied value wins,
"including zero and other falsy values"; but with `maxRetries = 0`
supplied, `MAX_RETRIES` is the default 5, not the supplied 0, because
the code combines the knobs with the JavaScript `||` operator. -/
theorem config_zero_value_counterexample :
    MAX_RETRIES zeroRetriesConfig = 5 ∧ ¬ MAX_RETRIES zeroRetriesConfig = 0 := by
  decide

/-- C3 (amended): a supplied truthy value (non-zero number, non-empty
string) wins for every knob; an absent knob, a supplied zero, or a
supplied empty string falls back to the documented default (5 minutes
TTL, "50mb" body limit, 10 s cooldown, 5 retries, 10 accounts, 120 s
max wait, port 8080, the home-relative accounts.json path). -/
theorem config_knobs_amended (c : Config) (home : List Char) :
    (c.tokenCacheTtlMs = none → TOKEN_REFRESH_INTERVAL_MS c = 5 * 60 * 1000) ∧
    (∀ v, c.tokenCacheTtlMs = some v → v ≠ 0 → TOKEN_REFRESH_INTERVAL_MS c = v) ∧
    (c.tokenCacheTtlMs = some 0 → TOKEN_REFRESH_INTERVAL_MS c = 5 * 60 * 1000) ∧
    (c.requestBodyLimit = none → REQUEST_BODY_LIMIT c = "50mb".toList) ∧
    (∀ s, c.requestBodyLimit = some s → s ≠ [] → REQUEST_BODY_LIMIT c = s) ∧
    (c.requestBodyLimit = some [] → REQUEST_BODY_LIMIT c = "50mb".toList) ∧
    (c.defaultCooldownMs = none → DEFAULT_COOLDOWN_MS c = 10 * 1000) ∧
    (∀ v, c.defaultCooldownMs = some v → v ≠ 0 → DEFAULT_COOLDOWN_MS c = v) ∧
    (c.defaultCooldownMs = some 0 → DEFAULT_COOLDOWN_MS c = 10 * 1000) ∧
    (c.maxRetries = none → MAX_RETRIES c = 5) ∧
    (∀ v, c.maxRetries = some v → v ≠ 0 → MAX_RETRIES c = v) ∧
    (c.maxRetries = some 0 → MAX_RETRIES c = 5) ∧
    (c.maxAccounts = none → MAX_ACCOUNTS c = 10) ∧
    (∀ v, c.maxAccounts = some v → v ≠ 0 → MAX_ACCOUNTS c = v) ∧
    (c.maxAccounts = some 0 → MAX_ACCOUNTS c = 10) ∧
    (c.maxWaitBeforeErrorMs = none → MAX_WAIT_BEFORE_ERROR_MS c = 120000) ∧
    (∀ v, c.maxWaitBeforeErrorMs = some v → v ≠ 0 → MAX_WAIT_BEFORE_ERROR_MS c = v) ∧
    (c.maxWaitBeforeErrorMs = some 0 → MAX_WAIT_BEFORE_ERROR_MS c = 120000) ∧
    (c.port = none → DEFAULT_PORT c = 8080) ∧
    (∀ v, c.port = some v → v ≠ 0 → DEFAULT_PORT c = v) ∧
    (c.port = some 0 → DEFAULT_PORT c = 8080) ∧
    (c.accountConfigPath = none →
      ACCOUNT_CONFIG_PATH c home =
        joinPath home ".config/antigravity-proxy/accounts.json".toList) ∧
    (∀ s, c.accountConfigPath = some s → s ≠ [] → ACCOUNT_CONFIG_PATH c home = s) ∧
    (c.accountConfigPath = some [] →
      ACCOUNT_CONFIG_PATH c home =
        joinPath home ".config/antigravity-proxy/accounts.json".toList) := by
  refine ⟨?_, ?_, ?_, ?_, ?_, ?_, ?_, ?_, ?_, ?_, ?_, ?_, ?_, ?_, ?_, ?_, ?_, ?_,
    ?_, ?_, ?_, ?_, ?_, ?_⟩ <;>
  · intros
    simp_all [TOKEN_REFRESH_INTERVAL_MS, REQUEST_BODY_LIMIT, DEFAULT_COOLDOWN_MS,
      MAX_RETRIES, MAX_ACCOUNTS, MAX_WAIT_BEFORE_ERROR_MS, DEFAULT_PORT,
      ACCOUNT_CONFIG_PATH, jsOrNat, jsOrStr]

/-- Witness for C3 at concrete configurations: supplied truthy values win,
absent knobs fall back to defaults. -/
theorem config_knobs_amended_witness :
    MAX_RETRIES fullConfig = 7 ∧ DEFAULT_PORT fullConfig = 3000 ∧
    TOKEN_REFRESH_INTERVAL_MS emptyConfig = 5 * 60 * 1000 ∧
    MAX_RETRIES zeroRetriesConfig = 5 := by
  obtain ⟨-, -, -, -, -, -, -, -, -, -, hr, -, -, -, -, -, -, -, -, hp, -, -, -, -⟩ :=
    config_knobs_amended fullConfig []
  obtain ⟨ht, -⟩ := config_knobs_amended emptyConfig []
  obtain ⟨-, -, -, -, -, -, -, -, -, -, -, hz, -⟩ :=
    config_knobs_amended zeroRetriesConfig []
  exact ⟨hr 7 rfl (by decide), hp 3000 rfl (by decide), ht rfl, hz rfl⟩

/-- C4 (counterexample): "claude-gemini-3" is classified as family claude,
its lower-cased form does not contain "thinking", yet `isThinkingModel`
returns true — the gemini version-number branch fires for a name of family
claude because the name also contains "gemini". -/
theorem claude_version_branch_counterexample :
    getModelFamily (some "claude-gemini-3".toList) = ModelFamily.claude ∧
    includesStr (lowerStr "claude-gemini-3".toList) thinkingStr = false ∧
    isThinkingModel (some "claude-gemini-3".toList) = true := by
  decide

/-- C4 (amended): for every model name classified as family claude whose
lower-cased form does not also contain "gemini", `isThinkingModel` returns
true exactly when the lower-cased name contains "thinking". -/
theorem claude_thinking_iff_substring_amended (m : Option (List Char))
    (hfam : getModelFamily m = ModelFamily.claude)
    (hng : includesStr (lowerStr (m.getD [])) geminiStr = false) :
    isThinkingModel m = includesStr (lowerStr (m.getD [])) thinkingStr := by
  have ha : includesStr (lowerStr (m.getD [])) claudeStr = true := by
    cases h : includesStr (lowerStr (m.getD [])) claudeStr
    · simp [getModelFamily, h, hng] at hfam
    · rfl
  cases hb : includesStr (lowerStr (m.getD [])) thinkingStr <;>
    simp [isThinkingModel, ha, hb, hng]

/-- Witness for C4 at two concrete claude model names. -/
theorem claude_thinking_iff_substring_amended_witness :
    isThinkingModel (some "claude-opus-4-5-thinking".toList) =
      includesStr (lowerStr "claude-opus-4-5-thinking".toList) thinkingStr ∧
    isThinkingModel (some "claude-opus-4-5".toList) =
      includesStr (lowerStr "claude-opus-4-5".toList) thinkingStr :=
  ⟨claude_thinking_iff_substring_amended (some "claude-opus-4-5-thinking".toList)
      (by decide) (by decide),
   claude_thinking_iff_substring_amended (some "claude-opus-4-5".toList)
      (by decide) (by decide)⟩

/-- C5 (counterexample): on macOS the credential-store path ends in
"state.vscdb", not "state.db" as the claim states. -/
theorem credential_store_filename_counterexample :
    ¬ getAntigravityDbPath "darwin".toList "/home/user".toList =
      "/home/user/Library/Application Support/Antigravity/User/globalStorage/state.db".toList := by
  decide

/-- C5 (amended): `getAntigravityDbPath` is a pure total function of
platform and home directory returning the macOS, Windows or default
XDG-style path ending in "state.vscdb"; and for a fixed home directory
the three branch markers "Library/Application Support", "AppData/Roaming"
and ".config" appear mutually exclusively, exactly on their own branch. -/
theorem credential_store_path_amended (plat home : List Char) :
    getAntigravityDbPath "darwin".toList home =
      joinPath home
        "Library/Application Support/Antigravity/User/globalStorage/state.vscdb".toList ∧
    getAntigravityDbPath "win32".toList home =
      joinPath home "AppData/Roaming/Antigravity/User/globalStorage/state.vscdb".toList ∧
    (plat ≠ "darwin".toList → plat ≠ "win32".toList →
      getAntigravityDbPath plat home =
        joinPath home ".config/Antigravity/User/globalStorage/state.vscdb".toList) ∧
    (includesStr (getAntigravityDbPath plat "/home/user".toList)
        "Library/Application Support".toList = true ↔ plat = "darwin".toList) ∧
    (includesStr (getAntigravityDbPath plat "/home/user".toList)
        "AppData/Roaming".toList = true ↔ plat = "win32".toList) ∧
    (includesStr (getAntigravityDbPath plat "/home/user".toList)
        ".config".toList = true ↔ (plat ≠ "darwin".toList ∧ plat ≠ "win32".toList)) := by
  refine ⟨rfl, rfl, fun h1 h2 => ?_, ?_, ?_, ?_⟩
  · unfold getAntigravityDbPath
    rw [if_neg h1, if_neg h2]
  · by_cases hd : plat = "darwin".toList
    · subst hd; decide
    · by_cases hw : plat = "win32".toList
      · subst hw; decide
      · unfold getAntigravityDbPath
        rw [if_neg hd, if_neg hw]
        exact iff_of_false (by decide) hd
  · by_cases hd : plat = "darwin".toList
    · subst hd; decide
    · by_cases hw : plat = "win32".toList
      · subst hw; decide
      · unfold getAntigravityDbPath
        rw [if_neg hd, if_neg hw]
        exact iff_of_false (by decide) hw
  · by_cases hd : plat = "darwin".toList
    · subst hd; decide
    · by_cases hw : plat = "win32".toList
      · subst hw; decide
      · unfold getAntigravityDbPath
        rw [if_neg hd, if_neg hw]
        exact iff_of_true (by decide) ⟨hd, hw⟩

/-- Witness for C5 on a non-macOS, non-Windows platform. -/
theorem credential_store_path_amended_witness :
    getAntigravityDbPath "linux".toList "/home/user".toList =
      joinPath "/home/user".toList
        ".config/Antigravity/User/globalStorage/state.vscdb".toList :=
  (credential_store_path_amended "linux".toList "/home/user".toList).2.2.1
    (by decide) (by decide)

/-- C6: the model fallback map has exactly six entries, every key has a
known family, every gemini key maps to a claude model and every claude key
to a gemini model, and it contains the round-trip pair
gemini-3-pro-high ↔ claude-opus-4-5-thinking. -/
theorem fallback_map_family_crossing :
    MODEL_FALLBACK_MAP.length = 6 ∧
    (∀ p ∈ MODEL_FALLBACK_MAP,
      ¬ getModelFamily (some p.1) = ModelFamily.unknown ∧
      (getModelFamily (some p.1) = ModelFamily.gemini →
        getModelFamily (some p.2) = ModelFamily.claude) ∧
      (getModelFamily (some p.1) = ModelFamily.claude →
        getModelFamily (some p.2) = ModelFamily.gemini)) ∧
    fallbackLookup "gemini-3-pro-high".toList = some "claude-opus-4-5-thinking".toList ∧
    fallbackLookup "claude-opus-4-5-thinking".toList = some "gemini-3-pro-high".toList := by
  decide

/-- Witness for C6 at the first map entry: its gemini key maps to a model
of family claude. -/
theorem fallback_map_family_crossing_witness :
    getModelFamily (some "claude-opus-4-5-thinking".toList) = ModelFamily.claude :=
  (fallback_map_family_crossing.2.1
      ("gemini-3-pro-high".toList, "claude-opus-4-5-thinking".toList)
      (by decide)).2.1 (by decide)

/-- C7: the endpoint fallback list has exactly two entries (hence at least
two), the daily endpoint first and the production endpoint second, and its
first element is not the production host. -/
theorem endpoint_fallback_order :
    ANTIGRAVITY_ENDPOINT_FALLBACKS.length = 2 ∧
    2 ≤ ANTIGRAVITY_ENDPOINT_FALLBACKS.length ∧
    ANTIGRAVITY_ENDPOINT_FALLBACKS.head? = some ANTIGRAVITY_ENDPOINT_DAILY ∧
    ANTIGRAVITY_ENDPOINT_FALLBACKS.get? 1 = some ANTIGRAVITY_ENDPOINT_PROD ∧
    ¬ ANTIGRAVITY_ENDPOINT_FALLBACKS.head? = some ANTIGRAVITY_ENDPOINT_PROD := by
  decide

/-- C8: both classifiers are total; a null/absent name, the empty string,
and any name whose lower-cased form contains neither "claude" nor "gemini"
classify as family unknown with thinking false. -/
theorem classifiers_total_on_unknown :
    getModelFamily none = ModelFamily.unknown ∧
    isThinkingModel none = false ∧
    getModelFamily (some []) = ModelFamily.unknown ∧
    isThinkingModel (some []) = false ∧
    (∀ m : Option (List Char),
      includesStr (lowerStr (m.getD [])) claudeStr = false →
      includesStr (lowerStr (m.getD [])) geminiStr = false →
      getModelFamily m = ModelFamily.unknown ∧ isThinkingModel m = false) := by
  refine ⟨by decide, by decide, by decide, by decide, fun m h1 h2 => ⟨?_, ?_⟩⟩
  · simp [getModelFamily, h1, h2]
  · simp [isThinkingModel, h1, h2]

/-- Witness for C8 at a name of neither family. -/
theorem classifiers_total_on_unknown_witness :
    getModelFamily (some "mistral-large".toList) = ModelFamily.unknown ∧
    isThinkingModel (some "mistral-large".toList) = false :=
  classifiers_total_on_unknown.2.2.2.2 (some "mistral-large".toList)
    (by decide) (by decide)

/-- C9: the fallback map is closed under one hop — every value of
`MODEL_FALLBACK_MAP` is itself a key of the map, so the substitute of any
mapped model has a substitute of its own. -/
theorem fallback_map_closed_under_hop :
    ∀ p ∈ MODEL_FALLBACK_MAP, (fallbackLookup p.2).isSome = true := by
  decide

/-- Witness for C9 at the first map entry. -/
theorem fallback_map_closed_under_hop_witness :
    (fallbackLookup "claude-opus-4-5-thinking".toList).isSome = true :=
  fallback_map_closed_under_hop
    ("gemini-3-pro-high".toList, "claude-opus-4-5-thinking".toList) (by decide)

/-- C10: thinking implies a known family — whenever `isThinkingModel`
returns true, `getModelFamily` of the same name is claude or gemini,
never unknown. -/
theorem thinking_implies_known_family (m : Option (List Char))
    (h : isThinkingModel m = true) :
    ¬ getModelFamily m = ModelFamily.unknown := by
  intro hu
  cases ha : includesStr (lowerStr (m.getD [])) claudeStr
  · cases hc : includesStr (lowerStr (m.getD [])) geminiStr
    · simp [isThinkingModel, ha, hc] at h
    · simp [getModelFamily, ha, hc] at hu
  · simp [getModelFamily, ha] at hu

/-- Witness for C10 at a thinking model name. -/
theorem thinking_implies_known_family_witness :
    ¬ getModelFamily (some "gemini-3-pro-high".toList) = ModelFamily.unknown :=
  thinking_implies_known_family (some "gemini-3-pro-high".toList) (by decide)

end AntigravityProxy
